import Mathlib

/-!
# Verification of the PriorArt_Search workflow core

A shallow embedding of the stage-graph engine of the patent prior-art
search agent: the `PatentSearchState` record threaded through the stages
(`src/src/patent_search_agent/state.py`), the individual stage nodes
(`nodes/*.py`), the IPC classification tool (`tools/ipccat_api.py`), the
Flask resume dispatcher (`app.py`) and the graph wiring (`graph.py`).

Modelling conventions:
* Every external collaborator call (LLM invocation, web search, HTTP API)
  is an oracle parameter of type `Except String α`; `.error e` models the
  try-body raising an exception with message `e`, `.ok v` models a
  successful structured result `v`.
* Python dicts with string keys are association lists preserving insertion
  order; a missing key on subscript access is a raised `KeyError`,
  modelled by `Except.error`.
* A node that can let an exception escape returns `Except String
  PatentSearchState`; a node that always returns a state is a total
  function into `PatentSearchState`.
* Pydantic schema validation (`List[str]` element types, `min_items` /
  `max_items` bounds) is modelled explicitly where a node constructs a
  schema object from dynamic data.
-/

namespace PriorArtSearch

/-- A role-tagged message record, as appended to the `messages` channel. -/
structure Msg where
  role : String
  content : String
deriving Repr, DecidableEq

/-- `schemas.ConceptMatrix`: three string-valued fields. -/
structure ConceptMatrix where
  problem_purpose : String
  object_system : String
  environment_field : String
deriving Repr, DecidableEq

/-- `schemas.SeedKeywords`: three `List[str]` fields (pydantic bounds 3..6). -/
structure SeedKeywords where
  problem_purpose : List String
  object_system : List String
  environment_field : List String
deriving Repr, DecidableEq

/-- A Python dict mapping category names to lists of strings, in insertion
order (payload of an `edit` resume instruction, and the value stored in
`validated_keywords`). -/
abbrev KwDict := List (String × List String)

/-- A dynamically typed Python list element: either a string or a nested
list of strings. -/
inductive PyItem where
  | pstr : String → PyItem
  | plist : List String → PyItem
deriving Repr, DecidableEq

/-- The dict built by `enhancement_node`: category name to list of
dynamically typed items. -/
abbrev EnhDict := List (String × List PyItem)

/-- The value stored in `enhanced_keywords`: either the dict built by the
success path, or (when the caller smuggled an `enhanced` key into the
validated dict) the raw list reached by the fallback subscript. -/
inductive EnhVal where
  | dict : EnhDict → EnhVal
  | raw : List String → EnhVal
deriving Repr, DecidableEq

/-- `schemas.SearchQueries`. -/
structure SearchQueries where
  queries : List String
deriving Repr, DecidableEq

/-- `schemas.EnhancedKeywords`: the per-keyword structured enhancement
result. -/
structure EnhancedKeywords where
  synonyms : List String
  related_terms : List String
  patent_terminology : List String
  technical_variations : List String
deriving Repr, DecidableEq

/-- `state.PatentSearchState`: the single mutable workflow state.
`none` models an absent (never assigned) channel. -/
structure PatentSearchState where
  patent_description : String
  max_results : Option Nat
  messages : List Msg
  concept_matrix : Option ConceptMatrix
  seed_keywords : Option SeedKeywords
  validated_keywords : Option KwDict
  enhanced_keywords : Option EnhVal
  ipc_codes : Option (List String)
  search_queries : Option SearchQueries
  errors : List String
deriving Repr, DecidableEq

/-- Ordered dict lookup (`d.get(k)` / `d[k]`). -/
def kwGet (d : KwDict) (k : String) : Option (List String) :=
  match d with
  | [] => none
  | (k1, v) :: rest => if k1 = k then some v else kwGet rest k

/-- `d.get(k, dflt)`. -/
def kwGetD (d : KwDict) (k : String) (dflt : List String) : List String :=
  (kwGet d k).getD dflt

/-- Ordered dict lookup on the enhancement dict. -/
def enhGet (d : EnhDict) (k : String) : Option (List PyItem) :=
  match d with
  | [] => none
  | (k1, v) :: rest => if k1 = k then some v else enhGet rest k

/-- `d[k].extend(xs)`: in-place extension of the list stored at `k`;
`none` models the `KeyError` raised when `k` is absent. -/
def enhExtend (d : EnhDict) (k : String) (xs : List PyItem) : Option EnhDict :=
  match d with
  | [] => none
  | (k1, v) :: rest =>
      if k1 = k then some ((k1, v ++ xs) :: rest)
      else (enhExtend rest k xs).map (fun r => (k1, v) :: r)

/-! ## Concept extraction (`nodes/concept_extraction.py`) -/

/-- `_fallback_concept_extraction`: the keyword lists are built empty, so
the minimum-item guards always fire and the first element of each
singleton list is taken. -/
def fallbackConceptExtraction (patent_description : String) : ConceptMatrix :=
  let problem_purpose : List String := []
  let object_system : List String := []
  let environment_field : List String := []
  let problem_purpose :=
    if problem_purpose.isEmpty then ["invention_purpose"] else problem_purpose
  let object_system :=
    if object_system.isEmpty then ["technical_system"] else object_system
  let environment_field :=
    if environment_field.isEmpty then ["technology_field"] else environment_field
  { problem_purpose := problem_purpose.headD ""
    object_system := object_system.headD ""
    environment_field := environment_field.headD "" }

/-- `concept_extraction_node`: on try-body success sets `concept_matrix`
to the structured result; on any exception falls back and records the
error. Always returns a state. -/
def conceptExtractionNode (llm : Except String ConceptMatrix)
    (s : PatentSearchState) : PatentSearchState :=
  match llm with
  | .ok cm =>
      { s with concept_matrix := some cm
               messages := s.messages ++ [⟨"ai", "concept matrix"⟩] }
  | .error e =>
      { s with concept_matrix := some (fallbackConceptExtraction s.patent_description)
               errors := s.errors ++ ["Error in concept extraction: " ++ e] }

/-! ## Keyword generation (`nodes/keyword_generation.py`) -/

/-- One category of `_fallback_keyword_generation`: the source iterates
`for concept in concept_matrix.problem_purpose` over a *string* field,
hence over its characters, and appends the three-element list
`[f"fallback_keyword_{concept}"] * 3` for each character, then slices
`[:10]`. Each produced element is therefore itself a list. -/
def fallbackCategory (concept : String) : List PyItem :=
  (concept.toList.map (fun c =>
    PyItem.plist (List.replicate 3 ("fallback_keyword_" ++ String.singleton c)))).take 10

/-- Pydantic validation of one `SeedKeywords` field: every element must be
a `str`, and the length must lie in the declared bounds `[3, 6]`. -/
def validStrList (items : List PyItem) : Bool :=
  items.all (fun i => match i with | .pstr _ => true | .plist _ => false)
    && decide (3 ≤ items.length) && decide (items.length ≤ 6)

/-- Strings of a validated item list. -/
def pyStrings (items : List PyItem) : List String :=
  items.filterMap (fun i => match i with | .pstr s => some s | .plist _ => none)

/-- `_fallback_keyword_generation`, including the `SeedKeywords(...)`
schema validation at the end: with `concept_matrix = None` the attribute
access raises; otherwise the constructor validates the three category
lists. -/
def fallbackKeywordGeneration (cm : Option ConceptMatrix) :
    Except String SeedKeywords :=
  match cm with
  | none => .error "AttributeError: NoneType object has no attribute problem_purpose"
  | some cm =>
      let pp := fallbackCategory cm.problem_purpose
      let os := fallbackCategory cm.object_system
      let ef := fallbackCategory cm.environment_field
      if validStrList pp && validStrList os && validStrList ef then
        .ok ⟨pyStrings pp, pyStrings os, pyStrings ef⟩
      else
        .error "ValidationError: SeedKeywords"

/-- `keyword_generation_node`: the try-body raises `ValueError` when
`concept_matrix` is absent and otherwise calls the LLM (`llm` oracle); the
except-handler recomputes seed keywords through
`_fallback_keyword_generation`, whose result it stores together with the
error message — or re-raises when the fallback itself raises. -/
def keywordGenerationNode (llm : Except String SeedKeywords)
    (s : PatentSearchState) : Except String PatentSearchState :=
  match s.concept_matrix with
  | none => (fallbackKeywordGeneration none).map (fun _ => s)
  | some _ =>
      match llm with
      | .ok kw =>
          .ok { s with seed_keywords := some kw
                       messages := s.messages ++
                         [⟨"human", "Generating search keywords from concepts"⟩,
                          ⟨"ai", "seed keywords"⟩] }
      | .error e =>
          match fallbackKeywordGeneration s.concept_matrix with
          | .ok fb =>
              .ok { s with seed_keywords := some fb
                           errors := s.errors ++ ["Error in keyword generation: " ++ e] }
          | .error e2 => .error e2

/-! ## Human validation (`nodes/human_validation.py`) -/

/-- A resume instruction as delivered through `interrupt(...)`: the
`type` tag and the optional `args["keywords"]` payload (`none` models an
absent `args` entry). -/
structure HumanResponse where
  rtype : String
  args : Option KwDict
deriving Repr, DecidableEq

/-- The accept-path dict `{"problem_purpose": ..., "object_system": ...,
"environment_field": ...}` built from the seed keywords. -/
def kwDictOfSeed (sk : SeedKeywords) : KwDict :=
  [("problem_purpose", sk.problem_purpose),
   ("object_system", sk.object_system),
   ("environment_field", sk.environment_field)]

/-- `_process_human_input`: returns the goto target and the updated state,
or the `ValueError` raised on an unknown tag (the `KeyError` case covers
an `edit` instruction without an `args` payload). -/
def processHumanInput (response : HumanResponse) (seed_keywords : SeedKeywords)
    (s : PatentSearchState) : Except String (String × PatentSearchState) :=
  if response.rtype = "accept" then
    .ok ("enhancement",
      { s with validated_keywords := some (kwDictOfSeed seed_keywords)
               messages := s.messages ++ [⟨"human", "User accepted keywords."⟩] })
  else if response.rtype = "edit" then
    match response.args with
    | none => .error "KeyError: args"
    | some kw =>
        .ok ("enhancement",
          { s with validated_keywords := some kw
                   messages := s.messages ++ [⟨"human", "User edited keywords."⟩] })
  else if response.rtype = "reject" then
    .ok ("keyword_generation",
      { s with messages := s.messages ++ [⟨"human", "User rejected keywords."⟩] })
  else
    .error ("Unknown response type: " ++ response.rtype)

/-- Result of entering `human_validation_node`: with seed keywords absent
the node returns a plain state update (no `Command`, no goto); otherwise
it raises the interrupt and suspends. -/
inductive HVEntry where
  | finish : PatentSearchState → HVEntry
  | suspend : HVEntry
deriving Repr, DecidableEq

/-- The guard `if not seed_keywords` of `human_validation_node`: a pydantic
model is always truthy, so the branch fires exactly when the channel is
unset; it appends the error and stores an empty dict in
`validated_keywords`. -/
def humanValidationEntry (s : PatentSearchState) : HVEntry :=
  match s.seed_keywords with
  | none => .finish
      { s with errors := s.errors ++ ["No seed keywords found for validation"]
               validated_keywords := some [] }
  | some _ => .suspend

/-! ## Enhancement (`nodes/enhancement.py`) -/

/-- The initial `enhanced_keywords` dict of `enhancement_node`: each
category is initialised to `[validated_keywords.get(cat, [])]` — a list
whose single element is the original keyword *list* (nested, not
flattened). -/
def enhInit (validated : KwDict) : EnhDict :=
  [("problem_purpose", [PyItem.plist (kwGetD validated "problem_purpose" [])]),
   ("object_system", [PyItem.plist (kwGetD validated "object_system" [])]),
   ("environment_field", [PyItem.plist (kwGetD validated "environment_field" [])])]

/-- `_format_concepts_for_enhancement(state.get("concept_matrix", {}))`:
when `concept_matrix` is set it is a pydantic object without `.items()`,
so the call raises; when absent the `{}` default formats to the empty
string. -/
def formatConceptsForEnhancement (cm : Option ConceptMatrix) : Except String String :=
  match cm with
  | some _ => .error "AttributeError: ConceptMatrix object has no attribute items"
  | none => .ok ""

/-- The try-body loop of `enhancement_node`: for every category and every
keyword of the validated dict, format the prompt (which may raise, see
`formatConceptsForEnhancement`), query the enhancement oracle `f`, and
extend the category list with synonyms, related terms, patent terminology
and technical variations in that order (a missing category key raises
`KeyError`). -/
def enhTryBody (f : String → EnhancedKeywords) (cm : Option ConceptMatrix)
    (validated : KwDict) : Except String EnhDict :=
  validated.foldlM (fun acc p =>
    p.2.foldlM (fun acc2 keyword => do
      let _ ← formatConceptsForEnhancement cm
      let r := f keyword
      match enhExtend acc2 p.1
          ((r.synonyms ++ r.related_terms ++ r.patent_terminology ++
            r.technical_variations).map PyItem.pstr) with
      | some acc3 => pure acc3
      | none => Except.error ("KeyError: " ++ p.1)) acc)
    (enhInit validated)

/-- The try-body of `enhancement_node` as a whole: oracle failure or a
loop exception aborts it. -/
def enhAttempt (enh : Except String (String → EnhancedKeywords))
    (s : PatentSearchState) : Except String PatentSearchState :=
  match enh with
  | .error e => .error e
  | .ok f =>
      match enhTryBody f s.concept_matrix (s.validated_keywords.getD []) with
      | .error e => .error e
      | .ok final => .ok { s with enhanced_keywords := some (.dict final) }

/-- `enhancement_node`: the except-handler calls
`_fallback_enhancement(validated_keywords)` — which returns the validated
dict itself — and then subscripts it with the key `"enhanced"`; when that
key is absent (the normal case) the handler itself raises `KeyError`. -/
def enhancementNode (enh : Except String (String → EnhancedKeywords))
    (s : PatentSearchState) : Except String PatentSearchState :=
  match enhAttempt enh s with
  | .ok s1 => .ok s1
  | .error e =>
      match kwGet (s.validated_keywords.getD []) "enhanced" with
      | some v => .ok { s with enhanced_keywords := some (.raw v)
                               errors := s.errors ++ [e] }
      | none => .error "KeyError: enhanced"

/-! ## IPC classification (`tools/ipccat_api.py`, `nodes/ipc_classification.py`) -/

/-- One prediction parsed from the IPCCAT XML response: `parse_predictions`
stores `None` for a missing `category` or `score` tag (the category is
already passed through `format_ipc_code`, which is opaque here). -/
structure Prediction where
  category : Option String
  score : Option Int
deriving Repr, DecidableEq

/-- Python's substring test `needle in hay`. -/
def pyIn (needle : String) (hay : String) : Bool :=
  if needle = "" then true else decide (2 ≤ (hay.splitOn needle).length)

/-- The technology-area mapping of `_fallback_ipc_classification`, in
source order. -/
def ipcClassificationsTable : List (String × List String) :=
  [("G06F", ["computer", "software", "data", "algorithm", "digital", "processing", "cpu"]),
   ("G06N", ["artificial intelligence", "machine learning", "neural network", "ai"]),
   ("G06Q", ["business", "commerce", "payment", "transaction", "e-commerce"]),
   ("H04W", ["wireless", "cellular", "wifi", "bluetooth", "radio", "mobile"]),
   ("H04L", ["network", "internet", "protocol", "communication", "transmission"]),
   ("H04N", ["video", "audio", "multimedia", "broadcasting", "streaming"]),
   ("G01D", ["measure", "sensor", "detect", "monitor", "gauge", "meter"]),
   ("G01C", ["navigation", "gps", "location", "positioning", "compass"]),
   ("G01N", ["analysis", "test", "examine", "spectroscopy", "chromatography"]),
   ("A61B", ["medical", "diagnosis", "surgery", "patient", "health", "clinical"]),
   ("A61K", ["medicine", "drug", "pharmaceutical", "therapy", "treatment"]),
   ("A61M", ["medical device", "infusion", "injection", "catheter"]),
   ("G05B", ["control", "regulate", "automatic", "system", "feedback"]),
   ("G05D", ["regulate", "automatic control", "servo", "motor control"]),
   ("G02B", ["optical", "lens", "mirror", "prism", "light", "photonic"]),
   ("H01S", ["laser", "maser", "optical amplifier", "light source"]),
   ("B60W", ["vehicle", "automobile", "car", "driving", "automotive"]),
   ("B64C", ["aircraft", "airplane", "drone", "aviation", "flight"]),
   ("H02J", ["power", "energy", "battery", "charging", "electrical grid"]),
   ("H01M", ["battery", "fuel cell", "electrochemical", "energy storage"]),
   ("G06F3", ["interface", "input", "display", "touch", "keyboard", "mouse"]),
   ("G09G", ["display", "screen", "monitor", "graphics", "visual"]),
   ("H04L9", ["security", "encryption", "cryptography", "authentication", "secure"]),
   ("G07C", ["access control", "identification", "security system", "lock"])]

/-- Stable descending insertion by score: an element is placed before the
first element with a strictly smaller score, so elements with equal
scores keep their original order — the behaviour of Python's stable
`sorted(..., key=lambda x: x[1], reverse=True)`. -/
def insertByScoreDesc (x : String × Nat) :
    List (String × Nat) → List (String × Nat)
  | [] => [x]
  | y :: ys => if y.2 ≤ x.2 then x :: y :: ys
               else y :: insertByScoreDesc x ys

/-- `_fallback_ipc_classification`: lowercase the summary, count matching
keywords per code, keep codes with a positive score, sort stably by score
descending, take the top five, defaulting to `["G06F"]` when nothing
matched. -/
def fallbackIpcClassification (patent_summary : String) : List String :=
  let summary_lower := patent_summary.toLower
  let scores := ipcClassificationsTable.filterMap (fun p =>
    let score := (p.2.filter (fun keyword => pyIn keyword summary_lower)).length
    if 0 < score then some (p.1, score) else none)
  let sorted_codes := scores.foldr insertByScoreDesc []
  let result_codes := (sorted_codes.take 5).map Prod.fst
  if result_codes.isEmpty then ["G06F"] else result_codes

/-- The code-extraction loop of `get_ipc_classification`: keep formatted
categories whose score passes the 500 threshold; a truthy category paired
with a `None` score makes `None >= 500` raise `TypeError`. -/
def extractIpcCodes (preds : List Prediction) : Except String (List String) :=
  preds.foldlM (fun acc pred =>
    match pred.category with
    | none => pure acc
    | some c =>
        if c = "" then pure acc
        else
          match pred.score with
          | some n => if 500 ≤ n then pure (acc ++ [c]) else pure acc
          | none => Except.error "TypeError: NoneType and int comparison") []

/-- `list(set(ipc_codes))`; CPython's set iteration order is unspecified,
the claims settled here never depend on this success branch's order. -/
def pyDedup (l : List String) : List String := l.eraseDups

/-- `get_ipc_classification`: any exception around the HTTP call or the
extraction, and an empty extraction result, fall back to
`_fallback_ipc_classification`. -/
def getIpcClassification (api : Except String (List Prediction))
    (patent_summary : String) : List String :=
  match api with
  | .error _ => fallbackIpcClassification patent_summary
  | .ok preds =>
      match extractIpcCodes preds with
      | .error _ => fallbackIpcClassification patent_summary
      | .ok ipc_codes =>
          if ipc_codes.isEmpty then fallbackIpcClassification patent_summary
          else pyDedup ipc_codes

/-- `_create_patent_summary`: the structured summary on success, the
description truncated to 400 characters on any failure. -/
def createPatentSummary (llm : Except String String) (description : String) : String :=
  match llm with
  | .ok content => content
  | .error _ => if 400 < description.length then description.take 400 else description

/-- `ipc_classification_node`: always returns a state with `ipc_codes`
set. -/
def ipcClassificationNode (summaryLlm : Except String String)
    (api : Except String (List Prediction)) (s : PatentSearchState) : PatentSearchState :=
  let patent_summary := createPatentSummary summaryLlm s.patent_description
  let codes := getIpcClassification api patent_summary
  { s with ipc_codes := some codes
           messages := s.messages ++ [⟨"human", "Generated IPC classification"⟩] }

/-! ## Query generation (`nodes/query_generation.py`) -/

/-- A tool call of the LLM response; `args` is the raw `queries` list fed
to the `SearchQueries` constructor. -/
structure ToolCall where
  name : String
  args : List String
deriving Repr, DecidableEq

/-- The LLM response of `query_generation_node`. -/
structure QGResponse where
  tool_calls : List ToolCall
deriving Repr, DecidableEq

/-- `SearchQueries(**tool_call["args"])` with its pydantic bounds
`min_items=5, max_items=8`. -/
def mkSearchQueries (args : List String) : Except String SearchQueries :=
  if 5 ≤ args.length ∧ args.length ≤ 8 then .ok ⟨args⟩
  else .error "ValidationError: SearchQueries"

/-- `_format_keywords_data`: `', '.join(keywords)` raises `TypeError` as
soon as a category contains a non-string element (the nested list that
`enhancement_node` places at the head of every category). -/
def formatKeywordsData (d : EnhDict) : Except String String := do
  let lines ← d.foldlM (fun acc p =>
    if p.2.isEmpty then pure acc
    else do
      let strs ← p.2.mapM (fun i =>
        match i with
        | PyItem.pstr str => pure str
        | PyItem.plist _ => Except.error "TypeError: sequence item: expected str instance, list found")
      pure (acc ++ [p.1 ++ ": " ++ String.intercalate ", " strs])) []
  pure (String.intercalate "\n" lines)

/-- The try-body of `query_generation_node`: format the enhanced keywords
(raising when the channel is unset or holds a non-dict, or contains a
nested list), join the IPC codes (raising when unset), call the LLM, and
either build `SearchQueries` from the first matching tool call or — in
the no-usable-tool-call branch — hit the unbound `tool_message` local in
the return expression, raising `NameError`. -/
def qgTry (llm : Except String QGResponse) (s : PatentSearchState) :
    Except String PatentSearchState :=
  match s.enhanced_keywords with
  | some (EnhVal.dict d) =>
      (match formatKeywordsData d with
       | .error e => .error e
       | .ok _ =>
          match s.ipc_codes with
          | none => .error "TypeError: can only join an iterable"
          | some _ =>
              match llm with
              | .error e => .error e
              | .ok response =>
                  match response.tool_calls.head? with
                  | some tc =>
                      if tc.name = "SearchQueries" then
                        match mkSearchQueries tc.args with
                        | .ok sq =>
                            .ok { s with search_queries := some sq
                                         messages := s.messages ++
                                           [⟨"ai", "query response"⟩,
                                            ⟨"tool", "Search queries generated successfully"⟩] }
                        | .error e => .error e
                      else .error "NameError: name tool_message is not defined"
                  | none => .error "NameError: name tool_message is not defined")
  | some (EnhVal.raw _) => .error "AttributeError: list object has no attribute items"
  | none => .error "AttributeError: NoneType object has no attribute items"

/-- `query_generation_node`: the except-handler absorbs every exception of
the try-body, appending the message to `errors` and leaving every other
channel (in particular `search_queries`) untouched. -/
def queryGenerationNode (llm : Except String QGResponse)
    (s : PatentSearchState) : PatentSearchState :=
  match qgTry llm s with
  | .ok s1 => s1
  | .error e => { s with errors := s.errors ++ ["Error in query generation: " ++ e] }

/-! ## The Flask resume dispatcher (`app.py`, `validate_keywords`) -/

/-- `validate_keywords`: reject an action outside
`['accept', 'reject', 'edit']` with the 400 response `Invalid action`;
otherwise build the resume command that is handed to the graph (`edit`
passes `data.get('keywords', {})` through unchanged). -/
def validateKeywordsCommand (action : String) (keywords : KwDict) :
    Except String HumanResponse :=
  if action = "accept" ∨ action = "reject" ∨ action = "edit" then
    if action = "accept" then .ok ⟨"accept", none⟩
    else if action = "reject" then .ok ⟨"reject", none⟩
    else .ok ⟨"edit", some keywords⟩
  else .error "Invalid action"

/-! ## The stage graph engine (`graph.py`)

`create_graph` wires `START → concept_extraction → keyword_generation →
human_validation` and `enhancement → ipc_classification →
query_generation → END`; `human_validation` has no static outgoing edge
and routes dynamically through the `Command(goto=...)` it returns, or
ends the run when it returns a plain state update. -/

inductive Stage where
  | conceptExtraction
  | keywordGeneration
  | humanValidation
  | suspended
  | enhancement
  | ipcClassification
  | queryGeneration
  | done
deriving Repr, DecidableEq

abbrev Config := Stage × PatentSearchState

/-- The stage named by a `Command(goto=...)` string. -/
def gotoStage (goto : String) : Stage :=
  if goto = "enhancement" then .enhancement
  else if goto = "keyword_generation" then .keywordGeneration
  else .done

/-- Entering `human_validation_node`: the missing-seed branch returns a
plain update and — the node having no static outgoing edge — the run ends
there; with seed keywords present the node suspends on `interrupt`. -/
def humanValidationStep (s : PatentSearchState) : Config :=
  match humanValidationEntry s with
  | .finish s1 => (.done, s1)
  | .suspend => (.suspended, s)

/-- Delivering a resume instruction to a suspended session: the node
resumes after `interrupt` and dispatches on `_process_human_input`; an
error means the invoke raised and the checkpoint was not replaced. -/
def resumeStep (r : HumanResponse) (s : PatentSearchState) : Except String Config :=
  match s.seed_keywords with
  | some sk => (processHumanInput r sk s).map (fun p => (gotoStage p.1, p.2))
  | none => .error "not suspended"

/-- The small-step execution relation of the compiled graph. Oracle
arguments quantify over every possible collaborator outcome; a node whose
invocation raises produces no step (the run aborts with the checkpoint
unchanged). -/
inductive Step : Config → Config → Prop where
  | concept (llm : Except String ConceptMatrix) (s : PatentSearchState) :
      Step (.conceptExtraction, s) (.keywordGeneration, conceptExtractionNode llm s)
  | keyword (llm : Except String SeedKeywords) (s s1 : PatentSearchState)
      (h : keywordGenerationNode llm s = .ok s1) :
      Step (.keywordGeneration, s) (.humanValidation, s1)
  | validation (s : PatentSearchState) :
      Step (.humanValidation, s) (humanValidationStep s)
  | resume (r : HumanResponse) (s : PatentSearchState) (c : Config)
      (h : resumeStep r s = .ok c) :
      Step (.suspended, s) c
  | enhance (enh : Except String (String → EnhancedKeywords))
      (s s1 : PatentSearchState) (h : enhancementNode enh s = .ok s1) :
      Step (.enhancement, s) (.ipcClassification, s1)
  | classify (summaryLlm : Except String String)
      (api : Except String (List Prediction)) (s : PatentSearchState) :
      Step (.ipcClassification, s) (.queryGeneration, ipcClassificationNode summaryLlm api s)
  | query (llm : Except String QGResponse) (s : PatentSearchState) :
      Step (.queryGeneration, s) (.done, queryGenerationNode llm s)

/-- The initial state built by the callers (`app.py` / `graph.py`):
only `patent_description`, `max_results` and an empty message list. -/
def initState (description : String) (max_results : Option Nat) : PatentSearchState :=
  { patent_description := description
    max_results := max_results
    messages := []
    concept_matrix := none
    seed_keywords := none
    validated_keywords := none
    enhanced_keywords := none
    ipc_codes := none
    search_queries := none
    errors := [] }

/-- Configurations reachable by the engine from a fresh session. -/
def Reachable (description : String) (max_results : Option Nat) (c : Config) : Prop :=
  Relation.ReflTransGen Step (Stage.conceptExtraction, initState description max_results) c

/-! ## Helper lemmas about the node functions -/

theorem fallbackCategory_all_plist (concept : String) :
    ∀ i ∈ fallbackCategory concept, ∃ l, i = PyItem.plist l := by
  intro i hi
  unfold fallbackCategory at hi
  have hi2 := List.mem_of_mem_take hi
  obtain ⟨c, _, rfl⟩ := List.mem_map.mp hi2
  exact ⟨_, rfl⟩

/-- The fallback keyword lists never validate: they are empty (violating
`min_items=3`) or contain nested lists (violating `List[str]`). -/
theorem validStrList_fallbackCategory (concept : String) :
    validStrList (fallbackCategory concept) = false := by
  rcases h : fallbackCategory concept with _ | ⟨i, rest⟩
  · simp [validStrList, h]
  · obtain ⟨l, rfl⟩ := fallbackCategory_all_plist concept i (h ▸ List.mem_cons_self i rest)
    simp [validStrList, h]

/-- `_fallback_keyword_generation` raises on every input. -/
theorem fallbackKeywordGeneration_error (cm : Option ConceptMatrix) :
    ∃ e, fallbackKeywordGeneration cm = .error e := by
  cases cm with
  | none => exact ⟨_, rfl⟩
  | some cm =>
      refine ⟨"ValidationError: SeedKeywords", ?_⟩
      unfold fallbackKeywordGeneration
      simp [validStrList_fallbackCategory]

/-- Channel effects of a successful `keyword_generation_node` invocation:
it requires and preserves `concept_matrix`, sets `seed_keywords`, and
leaves the downstream channels unchanged. -/
theorem keywordGenerationNode_ok {llm : Except String SeedKeywords}
    {s s1 : PatentSearchState} (h : keywordGenerationNode llm s = .ok s1) :
    s.concept_matrix.isSome ∧ s1.concept_matrix = s.concept_matrix ∧
    s1.seed_keywords.isSome ∧ s1.validated_keywords = s.validated_keywords ∧
    s1.enhanced_keywords = s.enhanced_keywords ∧ s1.ipc_codes = s.ipc_codes ∧
    s1.search_queries = s.search_queries := by
  unfold keywordGenerationNode at h
  rcases hcm : s.concept_matrix with _ | cm
  · rw [hcm] at h
    obtain ⟨e, he⟩ := fallbackKeywordGeneration_error none
    rw [he] at h
    cases h
  · rw [hcm] at h
    rcases llm with e | kw
    · obtain ⟨e2, he2⟩ := fallbackKeywordGeneration_error (some cm)
      rw [he2] at h
      cases h
    · cases h
      simp [hcm]

/-- Channel effects of `concept_extraction_node`: sets `concept_matrix`,
leaves the downstream channels unchanged. -/
theorem conceptExtractionNode_fields (llm : Except String ConceptMatrix)
    (s : PatentSearchState) :
    (conceptExtractionNode llm s).concept_matrix.isSome ∧
    (conceptExtractionNode llm s).seed_keywords = s.seed_keywords ∧
    (conceptExtractionNode llm s).validated_keywords = s.validated_keywords ∧
    (conceptExtractionNode llm s).enhanced_keywords = s.enhanced_keywords ∧
    (conceptExtractionNode llm s).ipc_codes = s.ipc_codes ∧
    (conceptExtractionNode llm s).search_queries = s.search_queries := by
  cases llm <;> simp [conceptExtractionNode]

/-- Channel effects of `_process_human_input` on success: `accept`/`edit`
set `validated_keywords` and go to `enhancement`, `reject` leaves the
channels unchanged and goes back to `keyword_generation`. -/
theorem processHumanInput_ok {r : HumanResponse} {sk : SeedKeywords}
    {s : PatentSearchState} {goto : String} {s1 : PatentSearchState}
    (h : processHumanInput r sk s = .ok (goto, s1)) :
    s1.concept_matrix = s.concept_matrix ∧ s1.seed_keywords = s.seed_keywords ∧
    s1.enhanced_keywords = s.enhanced_keywords ∧ s1.ipc_codes = s.ipc_codes ∧
    s1.search_queries = s.search_queries ∧
    ((goto = "enhancement" ∧ s1.validated_keywords.isSome) ∨
     (goto = "keyword_generation" ∧ s1.validated_keywords = s.validated_keywords)) := by
  unfold processHumanInput at h
  by_cases h1 : r.rtype = "accept"
  · rw [if_pos h1] at h
    cases h
    simp
  · rw [if_neg h1] at h
    by_cases h2 : r.rtype = "edit"
    · rw [if_pos h2] at h
      rcases ha : r.args with _ | kw <;> rw [ha] at h
      · cases h
      · cases h
        simp
    · rw [if_neg h2] at h
      by_cases h3 : r.rtype = "reject"
      · rw [if_pos h3] at h
        cases h
        simp
      · rw [if_neg h3] at h
        cases h

/-- A successful try-body only sets `enhanced_keywords`. -/
theorem enhAttempt_ok {enh : Except String (String → EnhancedKeywords)}
    {s s1 : PatentSearchState} (h : enhAttempt enh s = .ok s1) :
    ∃ final, s1 = { s with enhanced_keywords := some (EnhVal.dict final) } := by
  unfold enhAttempt at h
  split at h
  · cases h
  · split at h
    · cases h
    · cases h
      exact ⟨_, rfl⟩

/-- Channel effects of a successful `enhancement_node` invocation. -/
theorem enhancementNode_ok {enh : Except String (String → EnhancedKeywords)}
    {s s1 : PatentSearchState} (h : enhancementNode enh s = .ok s1) :
    s1.enhanced_keywords.isSome ∧ s1.concept_matrix = s.concept_matrix ∧
    s1.seed_keywords = s.seed_keywords ∧ s1.validated_keywords = s.validated_keywords ∧
    s1.ipc_codes = s.ipc_codes ∧ s1.search_queries = s.search_queries := by
  unfold enhancementNode at h
  split at h
  · next s2 hat =>
      cases h
      obtain ⟨final, rfl⟩ := enhAttempt_ok hat
      simp
  · next e hat =>
      split at h
      · cases h
        simp
      · cases h

/-- Channel effects of `ipc_classification_node`. -/
theorem ipcClassificationNode_fields (summaryLlm : Except String String)
    (api : Except String (List Prediction)) (s : PatentSearchState) :
    (ipcClassificationNode summaryLlm api s).ipc_codes.isSome ∧
    (ipcClassificationNode summaryLlm api s).concept_matrix = s.concept_matrix ∧
    (ipcClassificationNode summaryLlm api s).seed_keywords = s.seed_keywords ∧
    (ipcClassificationNode summaryLlm api s).validated_keywords = s.validated_keywords ∧
    (ipcClassificationNode summaryLlm api s).enhanced_keywords = s.enhanced_keywords ∧
    (ipcClassificationNode summaryLlm api s).search_queries = s.search_queries := by
  simp [ipcClassificationNode]

/-- A successful try-body of `query_generation_node` presupposes
`ipc_codes` and only sets `search_queries` and `messages`. -/
theorem qgTry_ok {llm : Except String QGResponse} {s s1 : PatentSearchState}
    (h : qgTry llm s = .ok s1) :
    s.ipc_codes.isSome ∧ s1.search_queries.isSome ∧
    s1.concept_matrix = s.concept_matrix ∧ s1.seed_keywords = s.seed_keywords ∧
    s1.validated_keywords = s.validated_keywords ∧
    s1.enhanced_keywords = s.enhanced_keywords ∧ s1.ipc_codes = s.ipc_codes := by
  unfold qgTry at h
  split at h
  · split at h
    · cases h
    · split at h
      · cases h
      · split at h
        · cases h
        · split at h
          · split at h
            · split at h
              · cases h
                simp_all
              · cases h
            · cases h
          · cases h
  · cases h
  · cases h

/-- `query_generation_node` never changes the upstream channels; it sets
`search_queries` only when the try-body succeeded (which requires
`ipc_codes`). -/
theorem queryGenerationNode_fields (llm : Except String QGResponse)
    (s : PatentSearchState) :
    (queryGenerationNode llm s).concept_matrix = s.concept_matrix ∧
    (queryGenerationNode llm s).seed_keywords = s.seed_keywords ∧
    (queryGenerationNode llm s).validated_keywords = s.validated_keywords ∧
    (queryGenerationNode llm s).enhanced_keywords = s.enhanced_keywords ∧
    (queryGenerationNode llm s).ipc_codes = s.ipc_codes ∧
    ((queryGenerationNode llm s).search_queries = s.search_queries ∨
     ((queryGenerationNode llm s).search_queries.isSome ∧ s.ipc_codes.isSome)) := by
  unfold queryGenerationNode
  rcases hq : qgTry llm s with e | s1
  · simp
  · obtain ⟨hic, hsq, h1, h2, h3, h4, h5⟩ := qgTry_ok hq
    simp only
    exact ⟨h1, h2, h3, h4, h5, Or.inr ⟨hsq, hic⟩⟩

/-- The heuristic fallback always returns at least one code. -/
theorem fallbackIpcClassification_ne_nil (patent_summary : String) :
    fallbackIpcClassification patent_summary ≠ [] := by
  unfold fallbackIpcClassification
  dsimp only
  split
  · simp
  · next hns =>
      intro hc
      rw [hc] at hns
      simp at hns

/-! ## The production-order invariant -/

/-- The six production-order channels are populated as a prefix of
`concept_matrix → seed_keywords → validated_keywords → enhanced_keywords
→ ipc_codes → search_queries`: each channel is only ever set when its
predecessor is set. -/
def fieldOrderOK (s : PatentSearchState) : Prop :=
  (s.search_queries.isSome → s.ipc_codes.isSome) ∧
  (s.ipc_codes.isSome → s.enhanced_keywords.isSome) ∧
  (s.enhanced_keywords.isSome → s.validated_keywords.isSome) ∧
  (s.validated_keywords.isSome → s.seed_keywords.isSome) ∧
  (s.seed_keywords.isSome → s.concept_matrix.isSome)

/-- Auxiliary stage-local facts needed to push `fieldOrderOK` through each
step: every edge into a stage establishes the input channel the stage
consumes. -/
def stageInv : Stage → PatentSearchState → Prop
  | .humanValidation, s => s.seed_keywords.isSome
  | .suspended, s => s.seed_keywords.isSome
  | .enhancement, s => s.validated_keywords.isSome
  | .ipcClassification, s => s.enhanced_keywords.isSome
  | _, _ => True

/-- The inductive invariant of the engine. -/
def EngineInv (c : Config) : Prop := fieldOrderOK c.2 ∧ stageInv c.1 c.2

theorem engineInv_init (description : String) (max_results : Option Nat) :
    EngineInv (Stage.conceptExtraction, initState description max_results) := by
  refine ⟨⟨?_, ?_, ?_, ?_, ?_⟩, trivial⟩ <;> simp [initState]

theorem step_preserves_engineInv {c c1 : Config} (hstep : Step c c1)
    (hinv : EngineInv c) : EngineInv c1 := by
  obtain ⟨⟨o1, o2, o3, o4, o5⟩, hstage⟩ := hinv
  cases hstep with
  | concept llm s =>
      obtain ⟨hcm, e1, e2, e3, e4, e5⟩ := conceptExtractionNode_fields llm s
      exact ⟨⟨by rw [e5, e4]; exact o1, by rw [e4, e3]; exact o2,
             by rw [e3, e2]; exact o3, by rw [e2, e1]; exact o4,
             fun _ => hcm⟩, trivial⟩
  | keyword llm s s1 h =>
      obtain ⟨hcm, e1, hseed, e2, e3, e4, e5⟩ := keywordGenerationNode_ok h
      exact ⟨⟨by rw [e5, e4]; exact o1, by rw [e4, e3]; exact o2,
             by rw [e3, e2]; exact o3, fun _ => hseed,
             by rw [e1]; exact fun _ => hcm⟩, hseed⟩
  | validation s =>
      have hstage2 : s.seed_keywords.isSome := hstage
      unfold humanValidationStep humanValidationEntry
      rcases hsk : s.seed_keywords with _ | sk
      · rw [hsk] at hstage2
        simp at hstage2
      · exact ⟨⟨o1, o2, o3, o4, o5⟩, hstage2⟩
  | resume r s c h =>
      unfold resumeStep at h
      split at h
      · next sk hsk =>
          rcases hp : processHumanInput r sk s with e | p <;> rw [hp] at h
          · cases h
          · simp only [Except.map] at h
            cases h
            obtain ⟨e1, e2, e3, e4, e5, hgoto⟩ :=
              processHumanInput_ok
                (show processHumanInput r sk s = .ok (p.1, p.2) by rw [hp])
            have hseed1 : p.2.seed_keywords.isSome := by rw [e2, hsk]; rfl
            rcases hgoto with ⟨hg, hv⟩ | ⟨hg, hv⟩
            · refine ⟨⟨by rw [e5, e4]; exact o1, by rw [e4, e3]; exact o2,
                      fun _ => hv, fun _ => hseed1,
                      by rw [e1]; intro _; exact o5 (by rw [← e2]; exact hseed1)⟩, ?_⟩
              show stageInv (gotoStage p.1) p.2
              rw [hg]
              simpa [gotoStage, stageInv] using hv
            · refine ⟨⟨by rw [e5, e4]; exact o1, by rw [e4, e3]; exact o2,
                      by rw [e3, hv]; exact o3, fun _ => hseed1,
                      by rw [e1]; intro _; exact o5 (by rw [← e2]; exact hseed1)⟩, ?_⟩
              show stageInv (gotoStage p.1) p.2
              rw [hg]
              simp [gotoStage, stageInv]
      · cases h
  | enhance enh s s1 h =>
      obtain ⟨henh, e1, e2, e3, e4, e5⟩ := enhancementNode_ok h
      simp only [stageInv] at hstage
      exact ⟨⟨by rw [e5, e4]; exact o1, fun _ => henh,
             by rw [e3]; intro _; exact hstage, by rw [e3, e2]; exact o4,
             by rw [e2, e1]; exact o5⟩, by simpa [stageInv] using henh⟩
  | classify summaryLlm api s =>
      obtain ⟨hipc, e1, e2, e3, e4, e5⟩ := ipcClassificationNode_fields summaryLlm api s
      simp only [stageInv] at hstage
      exact ⟨⟨fun _ => hipc, by rw [e4]; intro _; exact hstage,
             by rw [e4, e3]; exact o3, by rw [e3, e2]; exact o4,
             by rw [e2, e1]; exact o5⟩, trivial⟩
  | query llm s =>
      obtain ⟨e1, e2, e3, e4, e5, hsq⟩ := queryGenerationNode_fields llm s
      rcases hsq with hsq | ⟨hs1, hs2⟩
      · exact ⟨⟨by rw [hsq, e5]; exact o1, by rw [e5, e4]; exact o2,
               by rw [e4, e3]; exact o3, by rw [e3, e2]; exact o4,
               by rw [e2, e1]; exact o5⟩, trivial⟩
      · exact ⟨⟨fun _ => by rw [e5]; exact hs2, by rw [e5, e4]; exact o2,
               by rw [e4, e3]; exact o3, by rw [e3, e2]; exact o4,
               by rw [e2, e1]; exact o5⟩, trivial⟩

theorem reachable_engineInv {description : String} {max_results : Option Nat}
    {c : Config} (h : Reachable description max_results c) : EngineInv c := by
  induction h with
  | refl => exact engineInv_init description max_results
  | tail hsteps hstep ih => exact step_preserves_engineInv hstep ih

/-- The try-body of `query_generation_node` fails whenever the LLM call
raises. -/
theorem qgTry_llm_error (s : PatentSearchState) (e : String) :
    ∃ m, qgTry (.error e) s = .error m := by
  unfold qgTry
  split
  · split
    · exact ⟨_, rfl⟩
    · split
      · exact ⟨_, rfl⟩
      · exact ⟨_, rfl⟩
  · exact ⟨_, rfl⟩
  · exact ⟨_, rfl⟩

/-- The try-body of `query_generation_node` fails whenever the response
carries no tool call (the unbound `tool_message` local). -/
theorem qgTry_no_tool_call (s : PatentSearchState) (response : QGResponse)
    (hr : response.tool_calls = []) :
    ∃ m, qgTry (.ok response) s = .error m := by
  have hresp : response = ⟨[]⟩ := by
    cases response
    simp_all
  subst hresp
  unfold qgTry
  split
  · split
    · exact ⟨_, rfl⟩
    · split
      · exact ⟨_, rfl⟩
      · exact ⟨_, rfl⟩
  · exact ⟨_, rfl⟩
  · exact ⟨_, rfl⟩

/-! ## Concrete example data -/

/-- The seed keywords of the spec's review scenario. -/
def seedEx : SeedKeywords :=
  ⟨["p1", "p2", "p3"], ["o1", "o2", "o3"], ["e1", "e2", "e3"]⟩

/-- A session suspended at human validation with `seedEx` present. -/
def suspendedStateEx : PatentSearchState :=
  { initState "a solar powered water pump" (some 10) with
      concept_matrix := some ⟨"pumping water", "solar pump", "irrigation"⟩
      seed_keywords := some seedEx }

/-- A fresh state with no channel populated beyond the inputs. -/
def noSeedStateEx : PatentSearchState := initState "a solar powered water pump" (some 10)

/-- A concept matrix with one-character fields, exercising the fallback
keyword generation. -/
def cmEx : ConceptMatrix := ⟨"a", "b", "c"⟩

/-- A validated-keywords dict in the standard three-category shape. -/
def validatedEx : KwDict :=
  [("problem_purpose", ["p1", "p2", "p3"]), ("object_system", ["o1", "o2", "o3"]),
   ("environment_field", ["e1", "e2", "e3"])]

/-- A bare state for exercising `query_generation_node`. -/
def plainStateEx : PatentSearchState := initState "desc" (some 10)

/-! ## The claims -/

/-- **C1 — counterexample.** The claim says an `edit` resume instruction
defaults every omitted keyword category to the corresponding
`seedKeywords` category. The code does not: `_process_human_input` stores
the payload dict as-is, so resuming with only `problem_purpose` supplied
yields a `validated_keywords` dict with no `object_system` entry at all,
whereas `seedKeywords.objectSystem` is the non-empty `["o1","o2","o3"]`. -/
theorem c1_edit_defaulting_counterexample :
    processHumanInput ⟨"edit", some [("problem_purpose", ["x"])]⟩ seedEx suspendedStateEx =
      .ok ("enhancement",
        { suspendedStateEx with
            validated_keywords := some [("problem_purpose", ["x"])]
            messages := [⟨"human", "User edited keywords."⟩] }) ∧
    kwGet [("problem_purpose", ["x"])] "object_system" = none ∧
    seedEx.object_system = ["o1", "o2", "o3"] :=
  ⟨rfl, rfl, rfl⟩

/-- **C1 — amended.** For every suspended session, resuming with action
tag `edit` stores the instruction's keywords payload in
`validated_keywords` exactly as supplied — omitted categories are not
defaulted from `seedKeywords`, they are simply absent from the stored
dict — an audit message is appended, and the stage transitions to
`Enhancement`. -/
theorem c1_edit_stores_payload_exactly (sk : SeedKeywords)
    (s : PatentSearchState) (kw : KwDict) :
    processHumanInput ⟨"edit", some kw⟩ sk s =
      .ok ("enhancement",
        { s with validated_keywords := some kw
                 messages := s.messages ++ [⟨"human", "User edited keywords."⟩] }) := rfl

/-- **C2 — counterexample.** Entering `HumanValidation` with
`seedKeywords` unset records the error and sets `validated_keywords` to
the empty structure, but execution does not exit to `Enhancement`: the
branch returns a plain state update with no goto, `human_validation` has
no static outgoing edge, and the run ends there. -/
theorem c2_missing_seed_counterexample :
    (humanValidationStep noSeedStateEx).1 = Stage.done ∧
    Stage.done ≠ Stage.enhancement ∧
    (humanValidationStep noSeedStateEx).2.validated_keywords = some [] ∧
    (humanValidationStep noSeedStateEx).2.errors = ["No seed keywords found for validation"] :=
  ⟨rfl, by decide, rfl, rfl⟩

/-- **C2 — amended.** For every state entering `HumanValidation` with
`seedKeywords` unset, the stage records an error, sets
`validated_keywords` to the empty structure, and the run ends at the
node (the plain update carries no goto and the node has no static
outgoing edge) — it neither suspends nor deadlocks, but it also never
reaches `Enhancement`. -/
theorem c2_missing_seed_degrades (s : PatentSearchState)
    (h : s.seed_keywords = none) :
    humanValidationStep s =
      (Stage.done,
        { s with errors := s.errors ++ ["No seed keywords found for validation"]
                 validated_keywords := some [] }) := by
  unfold humanValidationStep humanValidationEntry
  rw [h]

theorem c2_missing_seed_degrades_witness :
    humanValidationStep noSeedStateEx =
      (Stage.done,
        { noSeedStateEx with
            errors := noSeedStateEx.errors ++ ["No seed keywords found for validation"]
            validated_keywords := some [] }) :=
  c2_missing_seed_degrades noSeedStateEx rfl

/-- **C3 — the code contradicts the claim.** With the keyword LLM failing
and `concept_matrix = ("a","b","c")`, the except-handler's fallback
iterates over the *characters* of each concept string and appends the
nested list `["fallback_keyword_a"] * 3` per character; the resulting
category value `[plist [...]]` violates the `SeedKeywords` schema
(`List[str]`, `min_items=3`), so the constructor raises and the exception
escapes the node instead of a placeholder-filled state being returned
(with `concept_matrix` absent the fallback raises `AttributeError`
likewise). -/
theorem c3_keyword_fallback_raises :
    keywordGenerationNode (.error "llm failure")
        { plainStateEx with concept_matrix := some cmEx } =
      .error "ValidationError: SeedKeywords" ∧
    fallbackCategory "a" =
      [PyItem.plist ["fallback_keyword_a", "fallback_keyword_a", "fallback_keyword_a"]] ∧
    validStrList (fallbackCategory "a") = false ∧
    keywordGenerationNode (.error "llm failure")
        { plainStateEx with concept_matrix := none } =
      .error "AttributeError: NoneType object has no attribute problem_purpose" :=
  ⟨rfl, rfl, rfl, rfl⟩

/-- **C4.** Resuming a suspended session whose `seed_keywords` are
populated with action tag `accept` steps the engine to `Enhancement`,
with `validated_keywords` deep-equal to the seed keywords (the three
category lists under the three category keys) and the audit message
appended to `messages`. -/
theorem c4_accept_resume (s : PatentSearchState) (sk : SeedKeywords)
    (h : s.seed_keywords = some sk) :
    Step (Stage.suspended, s)
      (Stage.enhancement,
        { s with validated_keywords := some (kwDictOfSeed sk)
                 messages := s.messages ++ [⟨"human", "User accepted keywords."⟩] }) := by
  apply Step.resume ⟨"accept", none⟩
  unfold resumeStep
  conv_lhs => rw [h]
  rfl

theorem c4_accept_resume_witness :
    Step (Stage.suspended, suspendedStateEx)
      (Stage.enhancement,
        { suspendedStateEx with
            validated_keywords := some (kwDictOfSeed seedEx)
            messages := suspendedStateEx.messages ++ [⟨"human", "User accepted keywords."⟩] }) :=
  c4_accept_resume suspendedStateEx seedEx rfl

/-- **C5.** A resume instruction whose action tag is none of `accept`,
`edit`, `reject` fails the resume call: `_process_human_input` raises a
`ValueError` naming the unknown tag, so the resume step produces no
successor configuration (the checkpoint stays `Suspended`), and the Flask
dispatcher independently rejects such an action with an explicit error
before resuming the graph; the instruction is never coerced to
`accept`. -/
theorem c5_unknown_tag_rejected (tag : String) (args : Option KwDict)
    (s : PatentSearchState) (sk : SeedKeywords) (kw : KwDict)
    (hsk : s.seed_keywords = some sk)
    (h1 : tag ≠ "accept") (h2 : tag ≠ "edit") (h3 : tag ≠ "reject") :
    resumeStep ⟨tag, args⟩ s = .error ("Unknown response type: " ++ tag) ∧
    validateKeywordsCommand tag kw = .error "Invalid action" ∧
    ∀ c, resumeStep ⟨tag, args⟩ s ≠ .ok c := by
  have hr : resumeStep ⟨tag, args⟩ s = .error ("Unknown response type: " ++ tag) := by
    unfold resumeStep
    rw [hsk]
    unfold processHumanInput
    dsimp only
    rw [if_neg h1, if_neg h2, if_neg h3]
    rfl
  refine ⟨hr, ?_, ?_⟩
  · unfold validateKeywordsCommand
    rw [if_neg (show ¬(tag = "accept" ∨ tag = "reject" ∨ tag = "edit") by
      rintro (hc | hc | hc)
      exacts [h1 hc, h3 hc, h2 hc])]
  · intro c hc
    rw [hr] at hc
    cases hc

theorem c5_unknown_tag_rejected_witness :
    resumeStep ⟨"bogus", none⟩ suspendedStateEx =
      .error ("Unknown response type: " ++ "bogus") ∧
    validateKeywordsCommand "bogus" [] = .error "Invalid action" ∧
    ∀ c, resumeStep ⟨"bogus", none⟩ suspendedStateEx ≠ .ok c :=
  c5_unknown_tag_rejected "bogus" none suspendedStateEx seedEx [] rfl
    (by decide) (by decide) (by decide)

/-- **C6 — the code contradicts the claim.** With validated keywords in
the standard three-category shape and the enhancement operation failing,
`enhancement_node` does not copy `validated_keywords` through unchanged:
its except-handler subscripts the dict returned by
`_fallback_enhancement` — the validated dict itself — with the key
`"enhanced"`, raising a `KeyError` that escapes the node. Moreover, even
on success each category does not remain a flat sequence of strings: the
node seeds every category with the entire original list nested as its
first element. -/
theorem c6_enhancement_fallback_keyerror :
    enhancementNode (.error "Enhancement error: llm failure")
        { plainStateEx with validated_keywords := some validatedEx } =
      .error "KeyError: enhanced" ∧
    enhGet (enhInit validatedEx) "problem_purpose" =
      some [PyItem.plist ["p1", "p2", "p3"]] :=
  ⟨rfl, rfl⟩

/-- **C7.** Whenever the query-generation try-body fails — the LLM call
raising, or the response carrying no usable `SearchQueries` tool call —
the node returns normally (no exception escapes) with the error appended
to `errors` and `search_queries` left exactly as it was; the graph's
only edge out of `query_generation` leads to the terminal stage, after
which no further step exists. -/
theorem c7_query_generation_failure (s : PatentSearchState) (e : String)
    (response : QGResponse) (hr : response.tool_calls = []) :
    (∃ m, queryGenerationNode (.error e) s =
        { s with errors := s.errors ++ ["Error in query generation: " ++ m] }) ∧
    (∃ m, queryGenerationNode (.ok response) s =
        { s with errors := s.errors ++ ["Error in query generation: " ++ m] }) ∧
    (queryGenerationNode (.error e) s).search_queries = s.search_queries ∧
    (queryGenerationNode (.ok response) s).search_queries = s.search_queries ∧
    Step (Stage.queryGeneration, s) (Stage.done, queryGenerationNode (.error e) s) ∧
    (∀ c, ¬ Step (Stage.done, queryGenerationNode (.error e) s) c) := by
  obtain ⟨m1, hm1⟩ := qgTry_llm_error s e
  obtain ⟨m2, hm2⟩ := qgTry_no_tool_call s response hr
  have hq1 : queryGenerationNode (.error e) s =
      { s with errors := s.errors ++ ["Error in query generation: " ++ m1] } := by
    unfold queryGenerationNode
    rw [hm1]
  have hq2 : queryGenerationNode (.ok response) s =
      { s with errors := s.errors ++ ["Error in query generation: " ++ m2] } := by
    unfold queryGenerationNode
    rw [hm2]
  refine ⟨⟨m1, hq1⟩, ⟨m2, hq2⟩, by rw [hq1], by rw [hq2],
    Step.query (.error e) s, ?_⟩
  intro c hc
  cases hc

theorem c7_query_generation_failure_witness :
    (∃ m, queryGenerationNode (.error "boom") plainStateEx =
        { plainStateEx with errors := plainStateEx.errors ++ ["Error in query generation: " ++ m] }) ∧
    (∃ m, queryGenerationNode (.ok ⟨[]⟩) plainStateEx =
        { plainStateEx with errors := plainStateEx.errors ++ ["Error in query generation: " ++ m] }) ∧
    (queryGenerationNode (.error "boom") plainStateEx).search_queries =
      plainStateEx.search_queries ∧
    (queryGenerationNode (.ok ⟨[]⟩) plainStateEx).search_queries =
      plainStateEx.search_queries ∧
    Step (Stage.queryGeneration, plainStateEx)
      (Stage.done, queryGenerationNode (.error "boom") plainStateEx) ∧
    (∀ c, ¬ Step (Stage.done, queryGenerationNode (.error "boom") plainStateEx) c) :=
  c7_query_generation_failure plainStateEx "boom" ⟨[]⟩ rfl

/-- **C8.** For every state and every summarization outcome, when the
classification-lookup collaborator fails the Classification stage still
sets `ipc_codes` to the result of the deterministic keyword-to-code
heuristic table applied to the summary text, and that result is never
empty (it contains at least the default code). -/
theorem c8_classification_fallback_nonempty (s : PatentSearchState)
    (summaryLlm : Except String String) (e : String) :
    (ipcClassificationNode summaryLlm (.error e) s).ipc_codes =
      some (fallbackIpcClassification
        (createPatentSummary summaryLlm s.patent_description)) ∧
    fallbackIpcClassification (createPatentSummary summaryLlm s.patent_description) ≠ [] := by
  refine ⟨?_, fallbackIpcClassification_ne_nil _⟩
  simp [ipcClassificationNode, getIpcClassification]

/-- **C9.** In every reachable configuration of the engine, the six
production-order channels `concept_matrix → seed_keywords →
validated_keywords → enhanced_keywords → ipc_codes → search_queries` are
populated in strictly increasing prefix order: a later field is never
set while any of its predecessors is unset; in particular
`validated_keywords` is never set while `seed_keywords` is unset. -/
theorem c9_production_order (description : String) (max_results : Option Nat)
    (c : Config) (h : Reachable description max_results c) :
    fieldOrderOK c.2 :=
  (reachable_engineInv h).1

theorem c9_production_order_witness :
    fieldOrderOK (Stage.keywordGeneration,
      conceptExtractionNode (.error "llm down") (initState "desc" none)).2 :=
  c9_production_order "desc" none
    (Stage.keywordGeneration, conceptExtractionNode (.error "llm down") (initState "desc" none))
    (Relation.ReflTransGen.single (Step.concept (.error "llm down") (initState "desc" none)))

/-- **C10.** The fallback concept matrix is a constant: for any two
patent descriptions the fallback returns the identical record
`("invention_purpose", "technical_system", "technology_field")`,
independent of the description input. -/
theorem c10_fallback_concept_matrix_constant (d1 d2 : String) :
    fallbackConceptExtraction d1 = fallbackConceptExtraction d2 ∧
    fallbackConceptExtraction d1 =
      { problem_purpose := "invention_purpose"
        object_system := "technical_system"
        environment_field := "technology_field" } :=
  ⟨rfl, rfl⟩

end PriorArtSearch
